import Mathlib

/-!
Verification of the AT91 USART SPI controller driver
(`drivers/spi/spi-at91-usart.c`) against its specification.

The driver is shallowly embedded: hardware registers and buffers become
explicit fields of a state record, machine integers become `Nat` (the
driver's `u32` values stay below `2 ^ 32`; the 32-bit complement `~` is
modelled explicitly by `compl32`), and the environment (the values the
status/data registers return, and the moments the interrupt fires) is
passed in as explicit data.  Register writes and lock operations are
additionally recorded in traces so that claims about them can be stated.
-/

namespace AT91UsartSpi

/-- The exact (unbounded) value `(n + d - 1) / d` of the
`DIV_ROUND_UP(n, d)` macro; used only to state when the driver's 32-bit
evaluation `divRoundUp32` computes the exact ceiling. -/
def divRoundUp (n d : Nat) : Nat := (n + d - 1) / d

/-- `DIV_ROUND_UP(n, d)` as the source evaluates it on `u32` operands:
the sum `n + d - 1` wraps modulo `2 ^ 32` before the division.  For
`0 < d` and `n, d < 2 ^ 32` this matches the C wrap-around exactly. -/
def divRoundUp32 (n d : Nat) : Nat := ((n + d - 1) % 2 ^ 32) / d

/-- The 32-bit bitwise complement `~m` applied to an `unsigned int` value:
xor with the all-ones 32-bit mask. -/
def compl32 (m : Nat) : Nat := 0xFFFFFFFF ^^^ m

/-! Register bit constants from the source (`BIT(n) = 2 ^ n`). -/

def US_CR_RSTRX : Nat := 2 ^ 2
def US_CR_RSTTX : Nat := 2 ^ 3
def US_CR_RXEN : Nat := 2 ^ 4
def US_CR_RXDIS : Nat := 2 ^ 5
def US_CR_TXEN : Nat := 2 ^ 6
def US_CR_TXDIS : Nat := 2 ^ 7

def US_MR_CPHA : Nat := 2 ^ 8
def US_MR_LOOP : Nat := 2 ^ 15
def US_MR_CPOL : Nat := 2 ^ 16

def US_IR_RXRDY : Nat := 2 ^ 0
def US_IR_TXRDY : Nat := 2 ^ 1
def US_IR_OVRE : Nat := 2 ^ 5

def US_MIN_CLK_DIV : Nat := 0x06
def US_MAX_CLK_DIV : Nat := 2 ^ 16

def US_RESET : Nat := US_CR_RSTRX ||| US_CR_RSTTX
def US_DISABLE : Nat := US_CR_RXDIS ||| US_CR_TXDIS
def US_ENABLE : Nat := US_CR_RXEN ||| US_CR_TXEN
def US_OVRE_RXRDY_IRQS : Nat := US_IR_OVRE ||| US_IR_RXRDY

/-- Modelled from the spec: the mode-descriptor flags of a peer device
(clock phase, clock polarity, loopback) come from the generic SPI
framework headers, which are not part of this repository.  They are the
standard `SPI_CPHA`/`SPI_CPOL`/`SPI_LOOP` bit values. -/
def SPI_CPHA : Nat := 0x01

/-- Modelled from the spec: clock-polarity flag of the mode descriptor. -/
def SPI_CPOL : Nat := 0x02

/-- Modelled from the spec: loopback flag of the mode descriptor. -/
def SPI_LOOP : Nat := 0x20

/-- Observable actions of the two execution contexts, recorded in a trace:
lock acquire/release and the hardware register accesses the claims talk
about. -/
inductive Act where
  | lock
  | unlock
  | readCSR
  | readRHR
  | writeTHR
  | writeIDR
  | cpuRelax
  deriving DecidableEq

/-- The controller state `struct at91_usart_spi` together with the live
transfer (`current_transfer`), the memory the driver writes through it,
and instrumentation traces.  `imr` models the set of enabled interrupt
sources (written through the IER/IDR registers); `mr`, `cr`, `brgr` model
the last value written to the corresponding register. -/
structure Aus where
  len : Nat
  tx_buf : Nat → Nat
  rx_buf : Nat → Nat
  current_tx_remaining_bytes : Nat
  current_rx_remaining_bytes : Nat
  xfer_failed : Bool
  status : Nat
  imr : Nat
  mr : Nat
  cr : Nat
  brgr : Nat
  rxWrites : List (Nat × Nat)
  thrWrites : List (Nat × Nat)
  rhrReads : Nat
  acts : List Act

/-- `at91_usart_spi_tx_ready`: `aus->status & US_IR_TXRDY`. -/
def at91_usart_spi_tx_ready (aus : Aus) : Bool :=
  aus.status &&& US_IR_TXRDY != 0

/-- `at91_usart_spi_rx_ready`: `aus->status & US_IR_RXRDY`. -/
def at91_usart_spi_rx_ready (aus : Aus) : Bool :=
  aus.status &&& US_IR_RXRDY != 0

/-- `at91_usart_spi_check_overrun`: `aus->status & US_IR_OVRE`. -/
def at91_usart_spi_check_overrun (aus : Aus) : Bool :=
  aus.status &&& US_IR_OVRE != 0

/-- `at91_usart_spi_read_status`: read CSR into `aus->status`.  The value
the hardware returns is an input `csr`. -/
def at91_usart_spi_read_status (csr : Nat) (aus : Aus) : Aus :=
  { aus with status := csr, acts := aus.acts ++ [Act.readCSR] }

/-- `at91_usart_spi_tx`: if bytes remain and the snapshot shows
transmit-ready, write `tx_buf[len - remaining]` to THR and decrement the
remaining counter.  THR writes are recorded as (index, byte) pairs. -/
def at91_usart_spi_tx (aus : Aus) : Aus :=
  let len := aus.len
  let remaining := aus.current_tx_remaining_bytes
  if remaining = 0 then aus
  else if at91_usart_spi_tx_ready aus then
    { aus with
      thrWrites := aus.thrWrites ++ [(len - remaining, aus.tx_buf (len - remaining))],
      acts := aus.acts ++ [Act.writeTHR],
      current_tx_remaining_bytes := remaining - 1 }
  else aus

/-- `at91_usart_spi_rx`: if bytes remain, read RHR (the hardware supplies
`rhr`) into `rx_buf[len - remaining]` and decrement the remaining
counter.  The RHR read happens only in that case. -/
def at91_usart_spi_rx (rhr : Nat) (aus : Aus) : Aus :=
  let len := aus.len
  let remaining := aus.current_rx_remaining_bytes
  if remaining = 0 then aus
  else
    { aus with
      rx_buf := Function.update aus.rx_buf (len - remaining) rhr,
      rxWrites := aus.rxWrites ++ [(len - remaining, rhr)],
      rhrReads := aus.rhrReads + 1,
      acts := aus.acts ++ [Act.readRHR],
      current_rx_remaining_bytes := remaining - 1 }

/-- Return value of the interrupt handler: `IRQ_HANDLED` or `IRQ_NONE`. -/
inductive IrqResult where
  | handled
  | irqNone
  deriving DecidableEq

/-- `at91_usart_spi_interrupt`: take the lock, read the status snapshot,
then: on overrun set the failure flag and disable the OVRE/RXRDY
interrupt sources (IDR write) without touching RHR; else on
receive-ready run the rx step; else report the interrupt as not ours. -/
def at91_usart_spi_interrupt (csr rhr : Nat) (aus0 : Aus) : Aus × IrqResult :=
  let aus := at91_usart_spi_read_status csr { aus0 with acts := aus0.acts ++ [Act.lock] }
  if at91_usart_spi_check_overrun aus then
    ({ aus with
       xfer_failed := true,
       imr := aus.imr &&& compl32 US_OVRE_RXRDY_IRQS,
       acts := aus.acts ++ [Act.writeIDR, Act.unlock] }, IrqResult.handled)
  else if at91_usart_spi_rx_ready aus then
    let aus2 := at91_usart_spi_rx rhr aus
    ({ aus2 with acts := aus2.acts ++ [Act.unlock] }, IrqResult.handled)
  else
    ({ aus with acts := aus.acts ++ [Act.unlock] }, IrqResult.irqNone)

/-- The hardware raises the interrupt line only when a pending status bit
is an enabled source; a single asynchronous interrupt event carries the
CSR and RHR values the handler would read. -/
def deliverIrq (ev : Nat × Nat) (aus : Aus) : Aus :=
  if ev.1 &&& aus.imr != 0 then (at91_usart_spi_interrupt ev.1 ev.2 aus).1 else aus

/-- Deliver a sequence of interrupt events in order. -/
def deliverIrqs (evs : List (Nat × Nat)) (aus : Aus) : Aus :=
  evs.foldl (fun s ev => deliverIrq ev s) aus

/-- The fields of `struct spi_transfer` the driver uses. -/
structure SpiTransfer where
  len : Nat
  tx_buf : Nat → Nat
  speed_hz : Nat

/-- `at91_usart_spi_set_xfer_speed`: write `DIV_ROUND_UP(spi_clk,
speed_hz)`, evaluated on `u32` operands (the sum wraps modulo `2 ^ 32`),
to the baud-rate-generator register. -/
def at91_usart_spi_set_xfer_speed (spi_clk : Nat) (xfer : SpiTransfer) (aus : Aus) : Aus :=
  { aus with brgr := divRoundUp32 spi_clk xfer.speed_hz }

/-- The environment of one iteration of the driving loop: the interrupt
events that fire before the iteration's status read, and the CSR value
that status read returns. -/
structure Step where
  irqs : List (Nat × Nat)
  csr : Nat

/-- The driving loop's continuation condition:
`(tx_remaining || rx_remaining) && !xfer_failed`. -/
def loopCond (aus : Aus) : Bool :=
  (aus.current_tx_remaining_bytes != 0 || aus.current_rx_remaining_bytes != 0)
    && !aus.xfer_failed

/-- One iteration of the driving loop's body: pending interrupt events
run, then the polling context re-reads the status snapshot, runs the tx
step and spins (`cpu_relax`). -/
def loopBody (st : Step) (aus : Aus) : Aus :=
  let s1 := deliverIrqs st.irqs aus
  let s2 := at91_usart_spi_read_status st.csr s1
  let s3 := at91_usart_spi_tx s2
  { s3 with acts := s3.acts ++ [Act.cpuRelax] }

/-- The driving loop of `at91_usart_spi_transfer_one`, run against a
finite environment trace; `none` means the environment trace ended while
the loop was still spinning (the code itself has no timeout). -/
def transferLoop : List Step → Aus → Option Aus
  | [], aus => if loopCond aus then none else some aus
  | st :: rest, aus =>
      if loopCond aus then transferLoop rest (loopBody st aus) else some aus

/-- The arming prefix of `at91_usart_spi_transfer_one`: set the divider,
install the transfer, clear the failure flag and reset both remaining
counters to the transfer length. -/
def armTransfer (spi_clk : Nat) (xfer : SpiTransfer) (aus0 : Aus) : Aus :=
  let s1 := at91_usart_spi_set_xfer_speed spi_clk xfer aus0
  { s1 with
    xfer_failed := false,
    len := xfer.len,
    tx_buf := xfer.tx_buf,
    current_tx_remaining_bytes := xfer.len,
    current_rx_remaining_bytes := xfer.len }

/-- `at91_usart_spi_transfer_one`: arm the cursor, run the driving loop,
and return `-EIO` on failure, `0` on success. -/
def at91_usart_spi_transfer_one (spi_clk : Nat) (xfer : SpiTransfer)
    (steps : List Step) (aus0 : Aus) : Option (Int × Aus) :=
  match transferLoop steps (armTransfer spi_clk xfer aus0) with
  | none => none
  | some s3 => some (if s3.xfer_failed then (-5 : Int) else 0, s3)

/-- The fields of `struct spi_device` the driver uses: the mode flags,
the declared word width, and the per-peer `controller_state` cache
(`none` models the NULL pointer before first allocation). -/
structure SpiDevice where
  mode : Nat
  bits_per_word : Nat
  controller_state : Option Nat
  deriving DecidableEq

/-- The mode value `at91_usart_spi_setup` computes from the live MR
value `mr` and the peer's mode flags: set or clear the CPOL, CPHA and
LOOP bits, leaving everything else as read. -/
def at91_usart_spi_setup_mr (mr mode : Nat) : Nat :=
  let mr1 := if mode &&& SPI_CPOL != 0 then mr ||| US_MR_CPOL else mr &&& compl32 US_MR_CPOL
  let mr2 := if mode &&& SPI_CPHA != 0 then mr1 ||| US_MR_CPHA else mr1 &&& compl32 US_MR_CPHA
  if mode &&& SPI_LOOP != 0 then mr2 ||| US_MR_LOOP else mr2 &&& compl32 US_MR_LOOP

/-- `at91_usart_spi_setup`: reject a word width other than 8 with
`-EINVAL` before touching any state; otherwise compute the mode value
from the live MR register (`mr0` is the value that read returns) and
store it in the per-peer cache.  On first use (`controller_state =
none`) the cache slot is allocated with `kzalloc`, whose success is the
environment input `allocOk`: on allocation failure setup returns
`-ENOMEM` with nothing cached. -/
def at91_usart_spi_setup (mr0 : Nat) (allocOk : Bool) (spi : SpiDevice) : Int × SpiDevice :=
  if spi.bits_per_word ≠ 8 then (-22, spi)
  else if spi.controller_state = none ∧ allocOk = false then (-12, spi)
  else (0, { spi with controller_state := some (at91_usart_spi_setup_mr mr0 spi.mode) })

/-- `at91_usart_spi_prepare_message`: enable the rx/tx paths (CR write),
enable the OVRE/RXRDY interrupt sources (IER write), and write the
peer's cached mode value `ausd` to MR. -/
def at91_usart_spi_prepare_message (ausd : Nat) (aus : Aus) : Aus :=
  { aus with
    cr := US_ENABLE,
    imr := aus.imr ||| US_OVRE_RXRDY_IRQS,
    mr := ausd }

/-- `at91_usart_spi_unprepare_message`: reset and disable the rx/tx
paths (CR write) and disable the OVRE/RXRDY interrupt sources (IDR
write). -/
def at91_usart_spi_unprepare_message (aus : Aus) : Aus :=
  { aus with
    cr := US_RESET ||| US_DISABLE,
    imr := aus.imr &&& compl32 US_OVRE_RXRDY_IRQS }

/-- The advertised speed range computed in `at91_usart_spi_probe`:
`(max_speed_hz, min_speed_hz) = (DIV_ROUND_UP(clk, US_MIN_CLK_DIV),
DIV_ROUND_UP(clk, US_MAX_CLK_DIV))`, with the macro evaluated on `u32`
operands (the sums wrap modulo `2 ^ 32`). -/
def probeSpeedBounds (clkRate : Nat) : Nat × Nat :=
  (divRoundUp32 clkRate US_MIN_CLK_DIV, divRoundUp32 clkRate US_MAX_CLK_DIV)

/-! Theorems. -/

/-- `DIV_ROUND_UP` bracketing: `d * divRoundUp n d` is a multiple of `d`
at least `n` and less than `n + d`. -/
theorem divRoundUp_bounds (n d : Nat) (hd : 0 < d) :
    n ≤ d * divRoundUp n d ∧ d * divRoundUp n d < n + d := by
  have h := Nat.div_add_mod (n + d - 1) d
  have hr := Nat.mod_lt (n + d - 1) hd
  unfold divRoundUp
  omega

/-- `DIV_ROUND_UP` is the exact rational ceiling. -/
theorem divRoundUp_eq_ceil (n d : Nat) (hd : 0 < d) :
    divRoundUp n d = ⌈(n : ℚ) / d⌉₊ := by
  obtain ⟨h1, h2⟩ := divRoundUp_bounds n d hd
  have hdq : (0 : ℚ) < d := by exact_mod_cast hd
  rcases Nat.eq_zero_or_pos n with hn | hn
  · subst hn
    have h0 : divRoundUp 0 d = 0 := by
      unfold divRoundUp
      exact Nat.div_eq_of_lt (by omega)
    rw [h0]
    simp
  · have hq0 : divRoundUp n d ≠ 0 := by
      intro h
      rw [h, Nat.mul_zero] at h1
      omega
    have hq1 : 1 ≤ divRoundUp n d := Nat.one_le_iff_ne_zero.2 hq0
    have h1q : (n : ℚ) ≤ d * divRoundUp n d := by exact_mod_cast h1
    have h2q : (d : ℚ) * divRoundUp n d < n + d := by exact_mod_cast h2
    symm
    rw [Nat.ceil_eq_iff hq0]
    constructor
    · rw [lt_div_iff₀ hdq]
      push_cast [Nat.cast_sub hq1]
      linarith
    · rw [div_le_iff₀ hdq]
      linarith

/-- The `u32` evaluation of `DIV_ROUND_UP` agrees with the unbounded
one whenever the sum does not overflow. -/
theorem divRoundUp32_eq_of_no_overflow (n d : Nat) (h : n + d ≤ 2 ^ 32) :
    divRoundUp32 n d = divRoundUp n d := by
  unfold divRoundUp32 divRoundUp
  rw [Nat.mod_eq_of_lt (by omega)]

/-- C8 as stated is false on the driver's 32-bit arithmetic: at base
clock `4294967295` Hz the `u32` sum `clk + 65535` wraps modulo `2 ^ 32`,
and probe advertises `min_speed_hz = 0` instead of the exact ceiling
`ceil(4294967295 / 65536) = 65536`. -/
theorem probe_speed_bounds_counterexample :
    (probeSpeedBounds 4294967295).2 = 0 ∧
    ⌈((4294967295 : Nat) : ℚ) / 65536⌉₊ = 65536 ∧
    ¬((probeSpeedBounds 4294967295).2 = ⌈((4294967295 : Nat) : ℚ) / 65536⌉₊) := by
  have h1 : (probeSpeedBounds 4294967295).2 = 0 := by decide
  have h2 : ⌈((4294967295 : Nat) : ℚ) / 65536⌉₊ = 65536 := by
    have h0 := (divRoundUp_eq_ceil 4294967295 65536 (by norm_num)).symm
    rw [show (((65536 : Nat)) : ℚ) = (65536 : ℚ) by norm_num] at h0
    rw [h0]
    decide
  refine ⟨h1, h2, ?_⟩
  intro h
  rw [h1, h2] at h
  exact absurd h (by decide)

/-- C8 amended: for every base clock whose `u32` sum with the fixed
divider constants does not overflow (`base_clock + 65536 ≤ 2 ^ 32`,
which holds for all real clock rates), the speed bounds advertised at
probe are exactly `max_speed_hz = ceil(base_clock / 6)` and
`min_speed_hz = ceil(base_clock / 65536)`, computed with the fixed
divider constants `US_MIN_CLK_DIV = 6` and `US_MAX_CLK_DIV = 65536`;
at larger clocks the 32-bit sum wraps and the bounds are not the
ceilings. -/
theorem probe_speed_bounds_spec (clkRate : Nat)
    (h : clkRate + 65536 ≤ 2 ^ 32) :
    (probeSpeedBounds clkRate).1 = ⌈(clkRate : ℚ) / 6⌉₊ ∧
    (probeSpeedBounds clkRate).2 = ⌈(clkRate : ℚ) / 65536⌉₊ ∧
    US_MIN_CLK_DIV = 6 ∧ US_MAX_CLK_DIV = 65536 := by
  refine ⟨?_, ?_, rfl, by norm_num [US_MAX_CLK_DIV]⟩
  · have h6 : (probeSpeedBounds clkRate).1 = divRoundUp clkRate 6 := by
      show divRoundUp32 clkRate US_MIN_CLK_DIV = _
      show divRoundUp32 clkRate 6 = _
      exact divRoundUp32_eq_of_no_overflow clkRate 6 (by omega)
    rw [h6]
    simpa using divRoundUp_eq_ceil clkRate 6 (by norm_num)
  · have h16 : (probeSpeedBounds clkRate).2 = divRoundUp clkRate 65536 := by
      show divRoundUp32 clkRate US_MAX_CLK_DIV = _
      have he : US_MAX_CLK_DIV = 65536 := by norm_num [US_MAX_CLK_DIV]
      rw [he]
      exact divRoundUp32_eq_of_no_overflow clkRate 65536 (by omega)
    rw [h16]
    simpa using divRoundUp_eq_ceil clkRate 65536 (by norm_num)

/-- Witness for `probe_speed_bounds_spec`: the bounds advertised for a
150 MHz base clock are the exact ceilings. -/
theorem probe_speed_bounds_spec_witness :
    ((150000000 : Nat) + 65536 ≤ 2 ^ 32) ∧
    (probeSpeedBounds 150000000).1 = ⌈((150000000 : Nat) : ℚ) / 6⌉₊ ∧
    (probeSpeedBounds 150000000).2 = ⌈((150000000 : Nat) : ℚ) / 65536⌉₊ :=
  ⟨by norm_num,
   (probe_speed_bounds_spec 150000000 (by norm_num)).1,
   (probe_speed_bounds_spec 150000000 (by norm_num)).2.1⟩

/-- C7: `prepare_message` immediately followed by `unprepare_message`
leaves the mode register equal to the peer's cached mode value and the
overrun and receive-ready interrupt sources disabled. -/
theorem prepare_unprepare_message_spec (ausd : Nat) (aus : Aus) :
    (at91_usart_spi_unprepare_message (at91_usart_spi_prepare_message ausd aus)).mr = ausd ∧
    (at91_usart_spi_unprepare_message (at91_usart_spi_prepare_message ausd aus)).imr
      &&& US_OVRE_RXRDY_IRQS = 0 := by
  constructor
  · rfl
  · show ((aus.imr ||| US_OVRE_RXRDY_IRQS) &&& compl32 US_OVRE_RXRDY_IRQS)
      &&& US_OVRE_RXRDY_IRQS = 0
    rw [Nat.land_assoc]
    have hc : compl32 US_OVRE_RXRDY_IRQS &&& US_OVRE_RXRDY_IRQS = 0 := by decide
    rw [hc]
    exact Nat.and_zero _

/-- C6: `setup` rejects a peer whose declared word width is not 8 bits
with `-EINVAL` (for any allocation behaviour, since the check precedes
the allocation), leaving the peer's state exactly as it was. -/
theorem setup_rejects_word_width (mr0 : Nat) (allocOk : Bool) (spi : SpiDevice)
    (h : spi.bits_per_word ≠ 8) :
    at91_usart_spi_setup mr0 allocOk spi = (-22, spi) := by
  simp [at91_usart_spi_setup, h]

/-- Witness for `setup_rejects_word_width`: a peer declaring 16-bit
words is rejected unchanged, even when the allocator would fail. -/
theorem setup_rejects_word_width_witness :
    (SpiDevice.mk 0 16 none).bits_per_word ≠ 8 ∧
    at91_usart_spi_setup 0 false (SpiDevice.mk 0 16 none)
      = (-22, SpiDevice.mk 0 16 none) :=
  ⟨by decide, setup_rejects_word_width 0 false (SpiDevice.mk 0 16 none) (by decide)⟩

/-- The driving loop returns a state only with its condition false. -/
theorem transferLoop_exit : ∀ (steps : List Step) (s sf : Aus),
    transferLoop steps s = some sf → loopCond sf = false := by
  intro steps
  induction steps with
  | nil =>
    intro s sf h
    by_cases hc : loopCond s = true
    · rw [transferLoop, if_pos hc] at h
      exact absurd h (by simp)
    · rw [transferLoop, if_neg hc] at h
      obtain rfl : s = sf := by injection h
      simpa using hc
  | cons st rest ih =>
    intro s sf h
    by_cases hc : loopCond s = true
    · rw [transferLoop, if_pos hc] at h
      exact ih _ _ h
    · rw [transferLoop, if_neg hc] at h
      obtain rfl : s = sf := by injection h
      simpa using hc

/-- A state whose failure flag is set exits the driving loop at once. -/
theorem transferLoop_failed (steps : List Step) (s : Aus)
    (h : s.xfer_failed = true) : transferLoop steps s = some s := by
  have hc : loopCond s = false := by simp [loopCond, h]
  cases steps with
  | nil => rw [transferLoop, if_neg (by simp [hc])]
  | cons st rest => rw [transferLoop, if_neg (by simp [hc])]

/-- C1: the driving loop iterates exactly while a remaining counter is
nonzero and the failure flag is clear; each iteration re-reads the
status snapshot, and when transmit-ready holds with bytes remaining it
writes `tx_buf[len - remaining]` to the data-out register and decrements
the transmit counter, otherwise it leaves the state unchanged; on exit
`transfer_one` reports normal completion exactly when both counters are
zero with the flag clear and a transmission error exactly when the flag
is set. -/
theorem transfer_one_spec (spi_clk : Nat) (xfer : SpiTransfer)
    (steps : List Step) (aus0 : Aus) (ret : Int) (sf : Aus)
    (hrun : at91_usart_spi_transfer_one spi_clk xfer steps aus0 = some (ret, sf)) :
    (∀ (st : Step) (rest : List Step) (s : Aus), loopCond s = true →
        transferLoop (st :: rest) s = transferLoop rest (loopBody st s)) ∧
    (∀ (st : Step) (rest : List Step) (s : Aus), loopCond s = false →
        transferLoop (st :: rest) s = some s) ∧
    (∀ (st : Step) (s : Aus), (loopBody st s).status = st.csr) ∧
    (∀ s : Aus, at91_usart_spi_tx_ready s = true → s.current_tx_remaining_bytes ≠ 0 →
        (at91_usart_spi_tx s).thrWrites
          = s.thrWrites ++ [(s.len - s.current_tx_remaining_bytes,
              s.tx_buf (s.len - s.current_tx_remaining_bytes))] ∧
        (at91_usart_spi_tx s).current_tx_remaining_bytes
          = s.current_tx_remaining_bytes - 1) ∧
    (∀ s : Aus, at91_usart_spi_tx_ready s = false ∨ s.current_tx_remaining_bytes = 0 →
        at91_usart_spi_tx s = s) ∧
    (ret = 0 ↔ sf.xfer_failed = false ∧ sf.current_tx_remaining_bytes = 0 ∧
        sf.current_rx_remaining_bytes = 0) ∧
    (ret = -5 ↔ sf.xfer_failed = true) := by
  have hloop : ∃ s3, transferLoop steps (armTransfer spi_clk xfer aus0) = some s3 ∧
      ret = (if s3.xfer_failed then (-5 : Int) else 0) ∧ sf = s3 := by
    unfold at91_usart_spi_transfer_one at hrun
    cases hl : transferLoop steps (armTransfer spi_clk xfer aus0) with
    | none => rw [hl] at hrun; cases hrun
    | some s3 =>
      rw [hl] at hrun
      simp only [Option.some.injEq, Prod.mk.injEq] at hrun
      exact ⟨s3, rfl, hrun.1.symm, hrun.2.symm⟩
  obtain ⟨s3, hl, hret, rfl⟩ := hloop
  have hexit : loopCond sf = false := transferLoop_exit steps _ sf hl
  have htxstatus : ∀ s : Aus, (at91_usart_spi_tx s).status = s.status := by
    intro s
    by_cases h1 : s.current_tx_remaining_bytes = 0
    · simp [at91_usart_spi_tx, h1]
    · by_cases h2 : at91_usart_spi_tx_ready s <;> simp [at91_usart_spi_tx, h1, h2]
  refine ⟨?_, ?_, ?_, ?_, ?_, ?_, ?_⟩
  · intro st rest s hc
    rw [transferLoop, if_pos hc]
  · intro st rest s hc
    rw [transferLoop, if_neg (by simp [hc])]
  · intro st s
    show (at91_usart_spi_tx (at91_usart_spi_read_status st.csr (deliverIrqs st.irqs s))).status
      = st.csr
    rw [htxstatus]
    rfl
  · intro s hready hrem
    constructor
    · simp [at91_usart_spi_tx, hready, hrem]
    · simp [at91_usart_spi_tx, hready, hrem]
  · intro s hcase
    rcases hcase with hready | hrem
    · by_cases hrem : s.current_tx_remaining_bytes = 0
      · simp [at91_usart_spi_tx, hrem]
      · simp [at91_usart_spi_tx, hready, hrem]
    · simp [at91_usart_spi_tx, hrem]
  · constructor
    · intro h0
      rw [h0] at hret
      by_cases hf : sf.xfer_failed = true
      · rw [if_pos hf] at hret
        cases hret
      · rw [if_neg hf] at hret
        have hf' : sf.xfer_failed = false := by simpa using hf
        have := hexit
        simp [loopCond, hf'] at this
        exact ⟨hf', this.1, this.2⟩
    · intro ⟨hf, _, _⟩
      rw [hret, if_neg (by simp [hf])]
  · constructor
    · intro h5
      by_cases hf : sf.xfer_failed = true
      · exact hf
      · rw [if_neg hf] at hret
        rw [hret] at h5
        cases h5
    · intro hf
      rw [hret, if_pos hf]

/-- A quiescent controller state, used by the concrete witnesses. -/
def ausInit : Aus :=
  { len := 0, tx_buf := fun _ => 0, rx_buf := fun _ => 0,
    current_tx_remaining_bytes := 0, current_rx_remaining_bytes := 0,
    xfer_failed := false, status := 0, imr := US_OVRE_RXRDY_IRQS, mr := 0,
    cr := 0, brgr := 0, rxWrites := [], thrWrites := [], rhrReads := 0, acts := [] }

/-- A zero-length transfer, used by the concrete witnesses. -/
def xferNil : SpiTransfer := { len := 0, tx_buf := fun _ => 0, speed_hz := 1 }

/-- Witness for `transfer_one_spec`: a concrete run that returns at once
with normal completion. -/
theorem transfer_one_spec_witness :
    ((0 : Int) = 0 ↔ (armTransfer 1 xferNil ausInit).xfer_failed = false ∧
      (armTransfer 1 xferNil ausInit).current_tx_remaining_bytes = 0 ∧
      (armTransfer 1 xferNil ausInit).current_rx_remaining_bytes = 0) ∧
    ((0 : Int) = -5 ↔ (armTransfer 1 xferNil ausInit).xfer_failed = true) :=
  ⟨(transfer_one_spec 1 xferNil [] ausInit 0 (armTransfer 1 xferNil ausInit)
      rfl).2.2.2.2.2.1,
   (transfer_one_spec 1 xferNil [] ausInit 0 (armTransfer 1 xferNil ausInit)
      rfl).2.2.2.2.2.2⟩

/-- With every interrupt source masked, a single interrupt event leaves
the state untouched (the handler never runs). -/
theorem deliverIrq_imr_zero (ev : Nat × Nat) (s : Aus) (h : s.imr = 0) :
    deliverIrq ev s = s := by
  simp [deliverIrq, h]

/-- With every interrupt source masked, no sequence of interrupt events
changes the state. -/
theorem deliverIrqs_imr_zero (evs : List (Nat × Nat)) (s : Aus) (h : s.imr = 0) :
    deliverIrqs evs s = s := by
  induction evs with
  | nil => rfl
  | cons ev rest ih =>
    show deliverIrqs rest (deliverIrq ev s) = s
    rw [deliverIrq_imr_zero ev s h]
    exact ih

/-- C3: when the interrupt handler processes an overrun, it sets the
failure flag, disables the interrupt sources and does not touch the
receive buffer or cursor; afterwards no interrupt event mutates the
state, the driving loop exits immediately, and the outcome computed from
the failure flag is the transmission error. -/
theorem overrun_abort_spec (s : Aus) (csr rhr : Nat)
    (hov : csr &&& US_IR_OVRE ≠ 0)
    (himr : s.imr &&& compl32 US_OVRE_RXRDY_IRQS = 0)
    (evs : List (Nat × Nat)) (steps : List Step) :
    (at91_usart_spi_interrupt csr rhr s).2 = IrqResult.handled ∧
    (at91_usart_spi_interrupt csr rhr s).1.xfer_failed = true ∧
    (at91_usart_spi_interrupt csr rhr s).1.rxWrites = s.rxWrites ∧
    (at91_usart_spi_interrupt csr rhr s).1.current_rx_remaining_bytes
      = s.current_rx_remaining_bytes ∧
    (at91_usart_spi_interrupt csr rhr s).1.imr = 0 ∧
    deliverIrqs evs ((at91_usart_spi_interrupt csr rhr s).1)
      = (at91_usart_spi_interrupt csr rhr s).1 ∧
    transferLoop steps ((at91_usart_spi_interrupt csr rhr s).1)
      = some ((at91_usart_spi_interrupt csr rhr s).1) ∧
    (if (at91_usart_spi_interrupt csr rhr s).1.xfer_failed then (-5 : Int) else 0)
      = -5 := by
  have hc : at91_usart_spi_check_overrun
      (at91_usart_spi_read_status csr { s with acts := s.acts ++ [Act.lock] }) = true := by
    simp [at91_usart_spi_check_overrun, at91_usart_spi_read_status, hov]
  have hred : at91_usart_spi_interrupt csr rhr s
      = (let aus := at91_usart_spi_read_status csr { s with acts := s.acts ++ [Act.lock] }
         ({ aus with
            xfer_failed := true,
            imr := aus.imr &&& compl32 US_OVRE_RXRDY_IRQS,
            acts := aus.acts ++ [Act.writeIDR, Act.unlock] }, IrqResult.handled)) := by
    rw [at91_usart_spi_interrupt, if_pos hc]
  rw [hred]
  refine ⟨rfl, rfl, rfl, rfl, himr, ?_, ?_, rfl⟩
  · exact deliverIrqs_imr_zero _ _ himr
  · exact transferLoop_failed _ _ rfl

/-- A mid-transfer controller state (one byte already received), used by
the concrete witnesses. -/
def ausMid : Aus :=
  { len := 3, tx_buf := fun i => [1, 2, 3].getD i 0, rx_buf := fun _ => 0,
    current_tx_remaining_bytes := 2, current_rx_remaining_bytes := 2,
    xfer_failed := false, status := 0, imr := US_OVRE_RXRDY_IRQS, mr := 0,
    cr := 0, brgr := 150, rxWrites := [(0, 170)], thrWrites := [(0, 1)],
    rhrReads := 1, acts := [] }

/-- Witness for `overrun_abort_spec`: an overrun with a simultaneously
pending receive byte aborts the transfer without consuming the byte. -/
theorem overrun_abort_spec_witness :
    ((33 : Nat) &&& US_IR_OVRE ≠ 0) ∧
    (ausMid.imr &&& compl32 US_OVRE_RXRDY_IRQS = 0) ∧
    (at91_usart_spi_interrupt 33 0xEE ausMid).1.xfer_failed = true ∧
    (at91_usart_spi_interrupt 33 0xEE ausMid).1.rxWrites = ausMid.rxWrites :=
  ⟨by decide, by decide,
   (overrun_abort_spec ausMid 33 0xEE (by decide) (by decide) [(1, 5)]
      [{ irqs := [], csr := 2 }]).2.1,
   (overrun_abort_spec ausMid 33 0xEE (by decide) (by decide) [(1, 5)]
      [{ irqs := [], csr := 2 }]).2.2.1⟩

/-- C9: the tx and rx steps are no-ops when their remaining counter is
zero; when they fire they touch only the buffer index `len - remaining`,
which lies in `[0, len)` under the counter invariant `remaining ≤ len`;
and a spurious receive-ready event arriving after receive-remaining has
reached zero is still answered `IRQ_HANDLED` but leaves the receive
buffer and the cursor unchanged. -/
theorem step_bounds_spec (s : Aus)
    (htx : s.current_tx_remaining_bytes ≤ s.len)
    (hrx : s.current_rx_remaining_bytes ≤ s.len) :
    (s.current_tx_remaining_bytes = 0 → at91_usart_spi_tx s = s) ∧
    (∀ rhr, s.current_rx_remaining_bytes = 0 → at91_usart_spi_rx rhr s = s) ∧
    (∀ p, p ∈ (at91_usart_spi_tx s).thrWrites → p ∈ s.thrWrites ∨ p.1 < s.len) ∧
    (∀ rhr p, p ∈ (at91_usart_spi_rx rhr s).rxWrites → p ∈ s.rxWrites ∨ p.1 < s.len) ∧
    (∀ csr rhr, csr &&& US_IR_OVRE = 0 → csr &&& US_IR_RXRDY ≠ 0 →
        s.current_rx_remaining_bytes = 0 →
        (at91_usart_spi_interrupt csr rhr s).2 = IrqResult.handled ∧
        (at91_usart_spi_interrupt csr rhr s).1.rx_buf = s.rx_buf ∧
        (at91_usart_spi_interrupt csr rhr s).1.rxWrites = s.rxWrites ∧
        (at91_usart_spi_interrupt csr rhr s).1.current_rx_remaining_bytes = 0) := by
  refine ⟨?_, ?_, ?_, ?_, ?_⟩
  · intro h0
    simp [at91_usart_spi_tx, h0]
  · intro rhr h0
    simp [at91_usart_spi_rx, h0]
  · intro p hp
    by_cases h0 : s.current_tx_remaining_bytes = 0
    · simp [at91_usart_spi_tx, h0] at hp
      exact Or.inl hp
    · by_cases hr : at91_usart_spi_tx_ready s
      · simp [at91_usart_spi_tx, h0, hr] at hp
        rcases hp with hp | hp
        · exact Or.inl hp
        · right
          subst hp
          show s.len - s.current_tx_remaining_bytes < s.len
          omega
      · simp [at91_usart_spi_tx, h0, hr] at hp
        exact Or.inl hp
  · intro rhr p hp
    by_cases h0 : s.current_rx_remaining_bytes = 0
    · simp [at91_usart_spi_rx, h0] at hp
      exact Or.inl hp
    · simp [at91_usart_spi_rx, h0] at hp
      rcases hp with hp | hp
      · exact Or.inl hp
      · right
        subst hp
        show s.len - s.current_rx_remaining_bytes < s.len
        omega
  · intro csr rhr hov hrdy h0
    have hco : at91_usart_spi_check_overrun
        (at91_usart_spi_read_status csr { s with acts := s.acts ++ [Act.lock] })
        = false := by
      simp [at91_usart_spi_check_overrun, at91_usart_spi_read_status, hov]
    have hrr : at91_usart_spi_rx_ready
        (at91_usart_spi_read_status csr { s with acts := s.acts ++ [Act.lock] })
        = true := by
      simpa [at91_usart_spi_rx_ready, at91_usart_spi_read_status] using hrdy
    rw [at91_usart_spi_interrupt, if_neg (by simp [hco]), if_pos hrr]
    have hnorx : ∀ t : Aus, t.current_rx_remaining_bytes = 0 →
        at91_usart_spi_rx rhr t = t := by
      intro t h
      simp [at91_usart_spi_rx, h]
    rw [hnorx _ (by simpa [at91_usart_spi_read_status] using h0)]
    exact ⟨rfl, rfl, rfl, by simpa [at91_usart_spi_read_status] using h0⟩

/-- Witness for `step_bounds_spec`: on the quiescent state the tx step
is a no-op and a spurious receive-ready interrupt is handled without
touching the receive buffer. -/
theorem step_bounds_spec_witness :
    (ausInit.current_tx_remaining_bytes ≤ ausInit.len) ∧
    (ausInit.current_rx_remaining_bytes ≤ ausInit.len) ∧
    at91_usart_spi_tx ausInit = ausInit ∧
    ((at91_usart_spi_interrupt 1 0xAB ausInit).2 = IrqResult.handled ∧
      (at91_usart_spi_interrupt 1 0xAB ausInit).1.rx_buf = ausInit.rx_buf ∧
      (at91_usart_spi_interrupt 1 0xAB ausInit).1.rxWrites = ausInit.rxWrites ∧
      (at91_usart_spi_interrupt 1 0xAB ausInit).1.current_rx_remaining_bytes = 0) :=
  ⟨by decide, by decide,
   (step_bounds_spec ausInit (by decide) (by decide)).1 rfl,
   (step_bounds_spec ausInit (by decide) (by decide)).2.2.2.2 1 0xAB
     (by decide) (by decide) rfl⟩

/-- C2 as stated is false at a receive-ready snapshot taken when
receive-remaining is already zero: the handler does answer
`IRQ_HANDLED`, but it performs no data-in read (and no buffer write and
no decrement), while the claim requires one. -/
theorem interrupt_rx_counterexample :
    (at91_usart_spi_interrupt 1 0xAB { ausInit with len := 1 }).2
      = IrqResult.handled ∧
    ¬((at91_usart_spi_interrupt 1 0xAB { ausInit with len := 1 }).1.rhrReads
        = ({ ausInit with len := 1 } : Aus).rhrReads + 1) ∧
    (at91_usart_spi_interrupt 1 0xAB { ausInit with len := 1 }).1.rxWrites = [] := by
  refine ⟨by decide, by decide, by decide⟩

/-- C2 amended: the overrun branch (which never reads the data-in
register, even with receive-ready also pending) and the not-mine branch
are as claimed; the receive branch reads and decrements only when
receive-remaining is nonzero, and otherwise still answers `IRQ_HANDLED`
while leaving the buffer and cursor untouched. -/
theorem interrupt_spec (csr rhr : Nat) (s : Aus) :
    (csr &&& US_IR_OVRE ≠ 0 →
        (at91_usart_spi_interrupt csr rhr s).2 = IrqResult.handled ∧
        (at91_usart_spi_interrupt csr rhr s).1.xfer_failed = true ∧
        (at91_usart_spi_interrupt csr rhr s).1.imr
          = s.imr &&& compl32 US_OVRE_RXRDY_IRQS ∧
        (at91_usart_spi_interrupt csr rhr s).1.rhrReads = s.rhrReads ∧
        (at91_usart_spi_interrupt csr rhr s).1.rxWrites = s.rxWrites ∧
        (at91_usart_spi_interrupt csr rhr s).1.current_rx_remaining_bytes
          = s.current_rx_remaining_bytes) ∧
    (csr &&& US_IR_OVRE = 0 → csr &&& US_IR_RXRDY ≠ 0 →
      s.current_rx_remaining_bytes ≠ 0 →
        (at91_usart_spi_interrupt csr rhr s).2 = IrqResult.handled ∧
        (at91_usart_spi_interrupt csr rhr s).1.rhrReads = s.rhrReads + 1 ∧
        (at91_usart_spi_interrupt csr rhr s).1.rx_buf
          = Function.update s.rx_buf (s.len - s.current_rx_remaining_bytes) rhr ∧
        (at91_usart_spi_interrupt csr rhr s).1.current_rx_remaining_bytes
          = s.current_rx_remaining_bytes - 1 ∧
        (at91_usart_spi_interrupt csr rhr s).1.xfer_failed = s.xfer_failed) ∧
    (csr &&& US_IR_OVRE = 0 → csr &&& US_IR_RXRDY ≠ 0 →
      s.current_rx_remaining_bytes = 0 →
        (at91_usart_spi_interrupt csr rhr s).2 = IrqResult.handled ∧
        (at91_usart_spi_interrupt csr rhr s).1.rhrReads = s.rhrReads ∧
        (at91_usart_spi_interrupt csr rhr s).1.rx_buf = s.rx_buf ∧
        (at91_usart_spi_interrupt csr rhr s).1.current_rx_remaining_bytes = 0) ∧
    (csr &&& US_IR_OVRE = 0 → csr &&& US_IR_RXRDY = 0 →
        (at91_usart_spi_interrupt csr rhr s).2 = IrqResult.irqNone ∧
        (at91_usart_spi_interrupt csr rhr s).1.xfer_failed = s.xfer_failed ∧
        (at91_usart_spi_interrupt csr rhr s).1.rhrReads = s.rhrReads ∧
        (at91_usart_spi_interrupt csr rhr s).1.imr = s.imr) := by
  refine ⟨?_, ?_, ?_, ?_⟩
  · intro hov
    have hc : at91_usart_spi_check_overrun
        (at91_usart_spi_read_status csr { s with acts := s.acts ++ [Act.lock] })
        = true := by
      simpa [at91_usart_spi_check_overrun, at91_usart_spi_read_status] using hov
    rw [at91_usart_spi_interrupt, if_pos hc]
    exact ⟨rfl, rfl, rfl, rfl, rfl, rfl⟩
  · intro hov hrdy h0
    have hc : at91_usart_spi_check_overrun
        (at91_usart_spi_read_status csr { s with acts := s.acts ++ [Act.lock] })
        = false := by
      simp [at91_usart_spi_check_overrun, at91_usart_spi_read_status, hov]
    have hrr : at91_usart_spi_rx_ready
        (at91_usart_spi_read_status csr { s with acts := s.acts ++ [Act.lock] })
        = true := by
      simpa [at91_usart_spi_rx_ready, at91_usart_spi_read_status] using hrdy
    rw [at91_usart_spi_interrupt, if_neg (by simp [hc]), if_pos hrr]
    refine ⟨rfl, ?_, ?_, ?_, ?_⟩ <;>
      simp [at91_usart_spi_rx, at91_usart_spi_read_status, h0]
  · intro hov hrdy h0
    have hc : at91_usart_spi_check_overrun
        (at91_usart_spi_read_status csr { s with acts := s.acts ++ [Act.lock] })
        = false := by
      simp [at91_usart_spi_check_overrun, at91_usart_spi_read_status, hov]
    have hrr : at91_usart_spi_rx_ready
        (at91_usart_spi_read_status csr { s with acts := s.acts ++ [Act.lock] })
        = true := by
      simpa [at91_usart_spi_rx_ready, at91_usart_spi_read_status] using hrdy
    rw [at91_usart_spi_interrupt, if_neg (by simp [hc]), if_pos hrr]
    refine ⟨rfl, ?_, ?_, ?_⟩ <;>
      simp [at91_usart_spi_rx, at91_usart_spi_read_status, h0]
  · intro hov hrdy
    have hc : at91_usart_spi_check_overrun
        (at91_usart_spi_read_status csr { s with acts := s.acts ++ [Act.lock] })
        = false := by
      simp [at91_usart_spi_check_overrun, at91_usart_spi_read_status, hov]
    have hrr : at91_usart_spi_rx_ready
        (at91_usart_spi_read_status csr { s with acts := s.acts ++ [Act.lock] })
        = false := by
      simp [at91_usart_spi_rx_ready, at91_usart_spi_read_status, hrdy]
    rw [at91_usart_spi_interrupt, if_neg (by simp [hc]), if_neg (by simp [hrr])]
    exact ⟨rfl, rfl, rfl, rfl⟩

/-- Witness for `interrupt_spec`: a receive-ready event mid-transfer
consumes one byte into index `len - remaining` and decrements the
cursor. -/
theorem interrupt_spec_witness :
    ((1 : Nat) &&& US_IR_OVRE = 0) ∧ ((1 : Nat) &&& US_IR_RXRDY ≠ 0) ∧
    (ausMid.current_rx_remaining_bytes ≠ 0) ∧
    ((at91_usart_spi_interrupt 1 0xBB ausMid).2 = IrqResult.handled ∧
      (at91_usart_spi_interrupt 1 0xBB ausMid).1.rhrReads = ausMid.rhrReads + 1 ∧
      (at91_usart_spi_interrupt 1 0xBB ausMid).1.rx_buf
        = Function.update ausMid.rx_buf (ausMid.len - ausMid.current_rx_remaining_bytes)
            0xBB ∧
      (at91_usart_spi_interrupt 1 0xBB ausMid).1.current_rx_remaining_bytes
        = ausMid.current_rx_remaining_bytes - 1 ∧
      (at91_usart_spi_interrupt 1 0xBB ausMid).1.xfer_failed = ausMid.xfer_failed) :=
  ⟨by decide, by decide, by decide,
   (interrupt_spec 1 0xBB ausMid).2.1 (by decide) (by decide) (by decide)⟩

/-- The bit `i` of the 32-bit complement of `2 ^ k` for `k < 32`. -/
theorem testBit_compl32_two_pow (k i : Nat) (hk : k < 32) :
    (compl32 (2 ^ k)).testBit i = (decide (i < 32) && !decide (k = i)) := by
  have h32 : (0xFFFFFFFF : Nat) = 2 ^ 32 - 1 := by norm_num
  rw [compl32, h32, Nat.testBit_xor, Nat.testBit_two_pow_sub_one, Nat.testBit_two_pow]
  by_cases hki : k = i
  · subst hki
    simp [hk]
  · by_cases hi : i < 32 <;> simp [hki, hi]

/-- The bit `i` of the CPOL mask `65536 = 2 ^ 16`. -/
theorem testBit_65536 (i : Nat) : Nat.testBit 65536 i = decide (16 = i) := by
  rw [show (65536 : Nat) = 2 ^ 16 by norm_num, Nat.testBit_two_pow]

/-- The bit `i` of the CPHA mask `256 = 2 ^ 8`. -/
theorem testBit_256 (i : Nat) : Nat.testBit 256 i = decide (8 = i) := by
  rw [show (256 : Nat) = 2 ^ 8 by norm_num, Nat.testBit_two_pow]

/-- The bit `i` of the LOOP mask `32768 = 2 ^ 15`. -/
theorem testBit_32768 (i : Nat) : Nat.testBit 32768 i = decide (15 = i) := by
  rw [show (32768 : Nat) = 2 ^ 15 by norm_num, Nat.testBit_two_pow]

/-- The bit `i` of the 32-bit complement of the CPOL mask. -/
theorem testBit_compl32_65536 (i : Nat) :
    (compl32 65536).testBit i = (decide (i < 32) && !decide (16 = i)) := by
  rw [show (65536 : Nat) = 2 ^ 16 by norm_num]
  exact testBit_compl32_two_pow 16 i (by norm_num)

/-- The bit `i` of the 32-bit complement of the CPHA mask. -/
theorem testBit_compl32_256 (i : Nat) :
    (compl32 256).testBit i = (decide (i < 32) && !decide (8 = i)) := by
  rw [show (256 : Nat) = 2 ^ 8 by norm_num]
  exact testBit_compl32_two_pow 8 i (by norm_num)

/-- The bit `i` of the 32-bit complement of the LOOP mask. -/
theorem testBit_compl32_32768 (i : Nat) :
    (compl32 32768).testBit i = (decide (i < 32) && !decide (15 = i)) := by
  rw [show (32768 : Nat) = 2 ^ 15 by norm_num]
  exact testBit_compl32_two_pow 15 i (by norm_num)

/-- C10: for an 8-bit peer, a repeated `setup` for a peer that already
has a cached value succeeds and overwrites the cache in place (as does
any setup whose first-use allocation succeeds), while a first-use setup
whose allocation fails returns `-ENOMEM` with nothing cached; the value
cached on success is computed from the live MR read: every bit other
than CPOL (16), CPHA (8) and LOOP (15) equals the corresponding bit of
the MR value read at the moment of the call, and those three bits
reflect the peer's mode flags. -/
theorem setup_mode_value_spec (mr0 : Nat) (allocOk : Bool) (spi : SpiDevice)
    (h8 : spi.bits_per_word = 8) (hmr : mr0 < 2 ^ 32) :
    (∀ v, spi.controller_state = some v →
        at91_usart_spi_setup mr0 allocOk spi
          = (0, { spi with controller_state
                    := some (at91_usart_spi_setup_mr mr0 spi.mode) })) ∧
    (allocOk = true →
        at91_usart_spi_setup mr0 allocOk spi
          = (0, { spi with controller_state
                    := some (at91_usart_spi_setup_mr mr0 spi.mode) })) ∧
    (spi.controller_state = none → allocOk = false →
        at91_usart_spi_setup mr0 allocOk spi = (-12, spi)) ∧
    (∀ i, i ≠ 8 → i ≠ 15 → i ≠ 16 →
        (at91_usart_spi_setup_mr mr0 spi.mode).testBit i = mr0.testBit i) ∧
    ((at91_usart_spi_setup_mr mr0 spi.mode).testBit 16
      = (spi.mode &&& SPI_CPOL != 0)) ∧
    ((at91_usart_spi_setup_mr mr0 spi.mode).testBit 8
      = (spi.mode &&& SPI_CPHA != 0)) ∧
    ((at91_usart_spi_setup_mr mr0 spi.mode).testBit 15
      = (spi.mode &&& SPI_LOOP != 0)) := by
  refine ⟨?_, ?_, ?_, ?_, ?_, ?_, ?_⟩
  · intro v hv
    rw [at91_usart_spi_setup, if_neg (by simp [h8]), if_neg (by simp [hv])]
  · intro ha
    rw [at91_usart_spi_setup, if_neg (by simp [h8]), if_neg (by simp [ha])]
  · intro hn hf
    rw [at91_usart_spi_setup, if_neg (by simp [h8]), if_pos ⟨hn, hf⟩]
  · intro i h8i h15i h16i
    have d8 : (8 = i) = False := eq_false (Ne.symm h8i)
    have d15 : (15 = i) = False := eq_false (Ne.symm h15i)
    have d16 : (16 = i) = False := eq_false (Ne.symm h16i)
    by_cases hi : i < 32
    · by_cases h1 : (spi.mode &&& SPI_CPOL != 0) = true <;>
        by_cases h2 : (spi.mode &&& SPI_CPHA != 0) = true <;>
        by_cases h3 : (spi.mode &&& SPI_LOOP != 0) = true <;>
        simp [at91_usart_spi_setup_mr, h1, h2, h3, US_MR_CPOL, US_MR_CPHA, US_MR_LOOP,
          Nat.testBit_lor, Nat.testBit_land, testBit_65536, testBit_256, testBit_32768,
          testBit_compl32_65536, testBit_compl32_256, testBit_compl32_32768,
          d8, d15, d16, hi]
    · have hmi : mr0.testBit i = false :=
        Nat.testBit_lt_two_pow
          (lt_of_lt_of_le hmr (Nat.pow_le_pow_right (by norm_num) (by omega)))
      by_cases h1 : (spi.mode &&& SPI_CPOL != 0) = true <;>
        by_cases h2 : (spi.mode &&& SPI_CPHA != 0) = true <;>
        by_cases h3 : (spi.mode &&& SPI_LOOP != 0) = true <;>
        simp [at91_usart_spi_setup_mr, h1, h2, h3, US_MR_CPOL, US_MR_CPHA, US_MR_LOOP,
          Nat.testBit_lor, Nat.testBit_land, testBit_65536, testBit_256, testBit_32768,
          testBit_compl32_65536, testBit_compl32_256, testBit_compl32_32768,
          d8, d15, d16, hi, hmi]
  · by_cases h1 : (spi.mode &&& SPI_CPOL != 0) = true <;>
      by_cases h2 : (spi.mode &&& SPI_CPHA != 0) = true <;>
      by_cases h3 : (spi.mode &&& SPI_LOOP != 0) = true <;>
      simp [at91_usart_spi_setup_mr, h1, h2, h3, US_MR_CPOL, US_MR_CPHA, US_MR_LOOP,
        Nat.testBit_lor, Nat.testBit_land, testBit_65536, testBit_256, testBit_32768,
        testBit_compl32_65536, testBit_compl32_256, testBit_compl32_32768]
  · by_cases h1 : (spi.mode &&& SPI_CPOL != 0) = true <;>
      by_cases h2 : (spi.mode &&& SPI_CPHA != 0) = true <;>
      by_cases h3 : (spi.mode &&& SPI_LOOP != 0) = true <;>
      simp [at91_usart_spi_setup_mr, h1, h2, h3, US_MR_CPOL, US_MR_CPHA, US_MR_LOOP,
        Nat.testBit_lor, Nat.testBit_land, testBit_65536, testBit_256, testBit_32768,
        testBit_compl32_65536, testBit_compl32_256, testBit_compl32_32768]
  · by_cases h1 : (spi.mode &&& SPI_CPOL != 0) = true <;>
      by_cases h2 : (spi.mode &&& SPI_CPHA != 0) = true <;>
      by_cases h3 : (spi.mode &&& SPI_LOOP != 0) = true <;>
      simp [at91_usart_spi_setup_mr, h1, h2, h3, US_MR_CPOL, US_MR_CPHA, US_MR_LOOP,
        Nat.testBit_lor, Nat.testBit_land, testBit_65536, testBit_256, testBit_32768,
        testBit_compl32_65536, testBit_compl32_256, testBit_compl32_32768]

/-- Witness for `setup_mode_value_spec`: repeated setup of a peer that
already has a cached value (here `some 5`) succeeds and overwrites it in
place with the value computed from the live MR read, even when a fresh
allocation would have failed. -/
theorem setup_mode_value_spec_witness :
    ((SpiDevice.mk 3 8 (some 5)).bits_per_word = 8) ∧ ((0xC0 : Nat) < 2 ^ 32) ∧
    at91_usart_spi_setup 0xC0 false (SpiDevice.mk 3 8 (some 5))
      = (0, SpiDevice.mk 3 8 (some (at91_usart_spi_setup_mr 0xC0 3))) :=
  ⟨by decide, by decide,
   (setup_mode_value_spec 0xC0 false (SpiDevice.mk 3 8 (some 5))
      (by decide) (by decide)).1 5 rfl⟩

/-- A transfer whose speed makes the `u32` sum in `DIV_ROUND_UP` wrap
at base clock `4294967295` Hz, used by the concrete counterexample. -/
def xferBig : SpiTransfer :=
  { len := 1, tx_buf := fun _ => 0, speed_hz := 715827883 }

/-- C4 as stated is false twice over.  With base clock 65536 Hz the
advertised range is `[min_speed_hz, max_speed_hz] = [1, 10923]`, and a
transfer at the advertised minimum speed of 1 Hz gets divider
`ceil(65536/1) = 65536`, outside the hardware range `[6, 65536)`.  And
the divider is not even the exact ceiling in general: at base clock
`4294967295` Hz and speed `715827883` Hz the `u32` sum
`spi_clk + speed_hz - 1` wraps modulo `2 ^ 32` and the code writes
divider 0 where the exact ceiling is 6. -/
theorem set_xfer_speed_counterexample :
    (probeSpeedBounds 65536).2 ≤ 1 ∧ (1 : Nat) ≤ (probeSpeedBounds 65536).1 ∧
    xferNil.speed_hz = 1 ∧
    (at91_usart_spi_set_xfer_speed 65536 xferNil ausInit).brgr = 65536 ∧
    ¬(6 ≤ (at91_usart_spi_set_xfer_speed 65536 xferNil ausInit).brgr ∧
      (at91_usart_spi_set_xfer_speed 65536 xferNil ausInit).brgr < 65536) ∧
    (at91_usart_spi_set_xfer_speed 4294967295 xferBig ausInit).brgr = 0 ∧
    divRoundUp 4294967295 xferBig.speed_hz = 6 := by
  refine ⟨by decide, by decide, by decide, by decide, by decide, by decide, by decide⟩

/-- C4 amended: the divider written to the baud-rate-generator register
is `DIV_ROUND_UP(base_clock, speed_hz)` evaluated on `u32` operands;
whenever the sum does not overflow (`base_clock + speed_hz ≤ 2 ^ 32`,
and `base_clock + 65536 ≤ 2 ^ 32` so that the advertised minimum speed
itself is unwrapped) it equals the exact integer ceiling
`ceil(base_clock / speed_hz)` — otherwise the code writes a wrapped
value such as 0.  The code does not clamp the result, so within the
advertised speed range only the weaker bounds hold: the divider is at
most 65536 (inclusive) when `speed_hz ≥ min_speed_hz`, and at least 6
only under the stronger hypothesis `6 * speed_hz ≤ base_clock`. -/
theorem set_xfer_speed_spec (spi_clk : Nat) (xfer : SpiTransfer) (aus : Aus)
    (hs : 0 < xfer.speed_hz)
    (hnof : spi_clk + xfer.speed_hz ≤ 2 ^ 32)
    (hclk : spi_clk + 65536 ≤ 2 ^ 32) :
    (at91_usart_spi_set_xfer_speed spi_clk xfer aus).brgr
      = ⌈(spi_clk : ℚ) / (xfer.speed_hz : ℚ)⌉₊ ∧
    ((probeSpeedBounds spi_clk).2 ≤ xfer.speed_hz →
      (at91_usart_spi_set_xfer_speed spi_clk xfer aus).brgr ≤ 65536) ∧
    (6 * xfer.speed_hz ≤ spi_clk →
      6 ≤ (at91_usart_spi_set_xfer_speed spi_clk xfer aus).brgr) := by
  have hb := divRoundUp_bounds spi_clk xfer.speed_hz hs
  have hbrgr : (at91_usart_spi_set_xfer_speed spi_clk xfer aus).brgr
      = divRoundUp spi_clk xfer.speed_hz := by
    show divRoundUp32 spi_clk xfer.speed_hz = _
    exact divRoundUp32_eq_of_no_overflow spi_clk xfer.speed_hz hnof
  rw [hbrgr]
  refine ⟨divRoundUp_eq_ceil spi_clk xfer.speed_hz hs, ?_, ?_⟩
  · intro hmin
    have h65536 : (probeSpeedBounds spi_clk).2 = divRoundUp spi_clk 65536 := by
      show divRoundUp32 spi_clk US_MAX_CLK_DIV = _
      have he : US_MAX_CLK_DIV = 65536 := by norm_num [US_MAX_CLK_DIV]
      rw [he]
      exact divRoundUp32_eq_of_no_overflow spi_clk 65536 hclk
    rw [h65536] at hmin
    obtain ⟨hc1, _⟩ := divRoundUp_bounds spi_clk 65536 (by norm_num)
    have h1 : spi_clk ≤ 65536 * xfer.speed_hz :=
      le_trans hc1 (Nat.mul_le_mul_left 65536 hmin)
    have h2 : xfer.speed_hz * divRoundUp spi_clk xfer.speed_hz
        < xfer.speed_hz * 65537 := by
      calc xfer.speed_hz * divRoundUp spi_clk xfer.speed_hz
          < spi_clk + xfer.speed_hz := hb.2
        _ ≤ 65536 * xfer.speed_hz + xfer.speed_hz := by omega
        _ = xfer.speed_hz * 65537 := by ring
    have h3 := Nat.lt_of_mul_lt_mul_left h2
    omega
  · intro h6
    have h1 : xfer.speed_hz * 6 ≤ xfer.speed_hz * divRoundUp spi_clk xfer.speed_hz := by
      calc xfer.speed_hz * 6 = 6 * xfer.speed_hz := by ring
        _ ≤ spi_clk := h6
        _ ≤ xfer.speed_hz * divRoundUp spi_clk xfer.speed_hz := hb.1
    exact Nat.le_of_mul_le_mul_left h1 hs

/-- A 1 MHz transfer, used by the concrete witnesses. -/
def xfer150 : SpiTransfer :=
  { len := 3, tx_buf := fun i => [1, 2, 3].getD i 0, speed_hz := 1000000 }

/-- Witness for `set_xfer_speed_spec`: the spec's end-to-end example,
base clock 150 MHz at 1 MHz, writes the exact ceiling divider. -/
theorem set_xfer_speed_spec_witness :
    (0 < xfer150.speed_hz) ∧
    ((150000000 : Nat) + xfer150.speed_hz ≤ 2 ^ 32) ∧
    ((150000000 : Nat) + 65536 ≤ 2 ^ 32) ∧
    (at91_usart_spi_set_xfer_speed 150000000 xfer150 ausInit).brgr
      = ⌈((150000000 : Nat) : ℚ) / (xfer150.speed_hz : ℚ)⌉₊ :=
  ⟨by decide, by decide, by decide,
   (set_xfer_speed_spec 150000000 xfer150 ausInit (by decide) (by decide) (by decide)).1⟩

/-- The lock depth at which each action of a trace executes, starting
from depth `d`. -/
def lockDepths : Nat → List Act → List (Act × Nat)
  | _, [] => []
  | d, a :: rest =>
      (a, d) :: lockDepths (match a with
        | Act.lock => d + 1
        | Act.unlock => d - 1
        | _ => d) rest

/-- C5 as stated is false: the driving loop of `transfer_one` takes no
lock at all, so its status re-read does not execute under the
controller's lock; in a concrete iteration the trace contains the status
read at lock depth 0 and no lock acquisition. -/
theorem loop_lock_counterexample :
    (Act.readCSR, 0) ∈ lockDepths 0 (loopBody { irqs := [], csr := 2 } ausMid).acts ∧
    Act.lock ∉ (loopBody { irqs := [], csr := 2 } ausMid).acts ∧
    ¬(∀ p ∈ lockDepths 0 (loopBody { irqs := [], csr := 2 } ausMid).acts,
        p.1 = Act.readCSR → 0 < p.2) := by
  refine ⟨by decide, by decide, by decide⟩

/-- C5 amended: the interrupt handler executes its status read and all
its cursor and failure-flag updates inside a single lock/unlock critical
section, while the polling context's loop body adds only status-read,
data-out-write and spin actions on top of whatever the interrupt context
did — the driving loop itself never acquires (hence never holds) the
lock, neither across a status inspection nor while busy-waiting. -/
theorem locking_spec (csr rhr : Nat) (s : Aus) (st : Step) :
    (∃ mid, (at91_usart_spi_interrupt csr rhr s).1.acts
        = s.acts ++ (Act.lock :: (mid ++ [Act.unlock])) ∧
      Act.lock ∉ mid ∧ Act.unlock ∉ mid ∧ Act.readCSR ∈ mid) ∧
    (∀ a ∈ (loopBody st s).acts,
        a ∈ (deliverIrqs st.irqs s).acts ∨ a = Act.readCSR ∨ a = Act.writeTHR ∨
        a = Act.cpuRelax) := by
  constructor
  · by_cases hov : at91_usart_spi_check_overrun
        (at91_usart_spi_read_status csr { s with acts := s.acts ++ [Act.lock] }) = true
    · refine ⟨[Act.readCSR, Act.writeIDR], ?_, by decide, by decide, by decide⟩
      rw [at91_usart_spi_interrupt, if_pos hov]
      show ((s.acts ++ [Act.lock]) ++ [Act.readCSR]) ++ [Act.writeIDR, Act.unlock] = _
      simp
    · by_cases hrr : at91_usart_spi_rx_ready
          (at91_usart_spi_read_status csr { s with acts := s.acts ++ [Act.lock] }) = true
      · by_cases h0 : s.current_rx_remaining_bytes = 0
        · refine ⟨[Act.readCSR], ?_, by decide, by decide, by decide⟩
          rw [at91_usart_spi_interrupt, if_neg (by simp [hov]), if_pos hrr]
          have hrx : ∀ t : Aus, t.current_rx_remaining_bytes = 0 →
              at91_usart_spi_rx rhr t = t := by
            intro t h
            simp [at91_usart_spi_rx, h]
          rw [hrx _ (by simpa [at91_usart_spi_read_status] using h0)]
          show ((s.acts ++ [Act.lock]) ++ [Act.readCSR]) ++ [Act.unlock] = _
          simp
        · refine ⟨[Act.readCSR, Act.readRHR], ?_, by decide, by decide, by decide⟩
          rw [at91_usart_spi_interrupt, if_neg (by simp [hov]), if_pos hrr]
          show (at91_usart_spi_rx rhr
              (at91_usart_spi_read_status csr { s with acts := s.acts ++ [Act.lock] })).acts
              ++ [Act.unlock] = _
          rw [show (at91_usart_spi_rx rhr
              (at91_usart_spi_read_status csr { s with acts := s.acts ++ [Act.lock] })).acts
              = ((s.acts ++ [Act.lock]) ++ [Act.readCSR]) ++ [Act.readRHR] by
            simp [at91_usart_spi_rx, at91_usart_spi_read_status, h0]]
          simp
      · refine ⟨[Act.readCSR], ?_, by decide, by decide, by decide⟩
        rw [at91_usart_spi_interrupt, if_neg (by simp [hov]), if_neg (by simp [hrr])]
        show ((s.acts ++ [Act.lock]) ++ [Act.readCSR]) ++ [Act.unlock] = _
        simp
  · intro a ha
    have hb : (loopBody st s).acts
        = (at91_usart_spi_tx
            (at91_usart_spi_read_status st.csr (deliverIrqs st.irqs s))).acts
          ++ [Act.cpuRelax] := rfl
    rw [hb] at ha
    have htx : ∀ t : Aus, ∀ b ∈ (at91_usart_spi_tx t).acts,
        b ∈ t.acts ∨ b = Act.writeTHR := by
      intro t b hbt
      by_cases h1 : t.current_tx_remaining_bytes = 0
      · rw [show at91_usart_spi_tx t = t by simp [at91_usart_spi_tx, h1]] at hbt
        exact Or.inl hbt
      · by_cases h2 : at91_usart_spi_tx_ready t = true
        · rw [show (at91_usart_spi_tx t).acts = t.acts ++ [Act.writeTHR] by
              simp [at91_usart_spi_tx, h1, h2]] at hbt
          rcases List.mem_append.1 hbt with hl | hr
          · exact Or.inl hl
          · exact Or.inr (by simpa using hr)
        · rw [show at91_usart_spi_tx t = t by
              simp [at91_usart_spi_tx, h1, h2]] at hbt
          exact Or.inl hbt
    rcases List.mem_append.1 ha with hl | hr
    · rcases htx _ a hl with h | h
      · have : a ∈ (deliverIrqs st.irqs s).acts ∨ a = Act.readCSR := by
          have hread : (at91_usart_spi_read_status st.csr (deliverIrqs st.irqs s)).acts
              = (deliverIrqs st.irqs s).acts ++ [Act.readCSR] := rfl
          rw [hread] at h
          rcases List.mem_append.1 h with h1 | h1
          · exact Or.inl h1
          · exact Or.inr (by simpa using h1)
        rcases this with h1 | h1
        · exact Or.inl h1
        · exact Or.inr (Or.inl h1)
      · exact Or.inr (Or.inr (Or.inl h))
    · exact Or.inr (Or.inr (Or.inr (by simpa using hr)))

end AT91UsartSpi
